import Mathlib

/-!
Verification development for the femto toolpath planner and PGM instruction
compiler.

The instruction compiler (`src/femto/compiler/PGMCompiler.py`) is embedded as a
pure state machine.  Python floats (pause durations, coordinates, feed rates)
are modelled as exact rationals `ℚ`; the numeric values that appear in the
claims (`0.25`, `0.15`, `1e-6`, `10`, `50`, …) are all exactly representable,
so no rounding behaviour is lost for the properties at stake.  The coordinate
transformation matrix `_compute_t_matrix` involves `cos`/`sin` and is embedded
separately over `ℝ`; inside the rational state machine the transformation is
carried as an abstract function `T : ℚ×ℚ×ℚ → ℚ×ℚ×ℚ` stored in the
configuration (the compiler recomputes the same matrix from its immutable
`angle`/`ind_rif` fields at every `point_to_instruction` call, so a fixed
function parameter is a faithful rendering).

The trench planner (`src/src/femto/trench.py`) delegates all geometric
primitives (buffering, boolean difference, largest interior rectangle, …) to
the external geometry engine (shapely / largestinteriorrectangle), which the
specification explicitly treats as an external capability.  The engine is
embedded as a record of abstract operations `GeomEngine`; a polygon is its
exterior coordinate ring, a multi-polygon is the list of its parts.
-/

/-! ## Instruction compiler: data model -/

/-- Errors raised by the Python compiler: failed `assert` statements,
`ValueError` from `_format_args`, `AttributeError` (from
`_parse_filepath` calling the non-existent method `filename.exist()`),
`IndexError` (list indexing/popping out of range), and the structural
balance failures of `compile_pgm` which carry the number of missing
closing directives and their name. -/
inductive Err where
  | assertFail (msg : String)
  | valueError (msg : String)
  | attributeError
  | indexError
  | unbalanced (missing : ℕ) (directive : String)
  deriving DecidableEq

/-- One formatted coordinate field of a positioning instruction, as produced by
`PGMCompiler._format_args`: the axis letter together with the numeric value.
The fixed-decimal rendering with `output_digits` digits is not modelled; the
exact value is kept. -/
inductive Arg where
  | X (v : ℚ)
  | Y (v : ℚ)
  | Z (v : ℚ)
  | F (v : ℚ)
  deriving DecidableEq

/-- One instruction of the output stream (`self._instructions`).  Each
constructor corresponds to one literal text line appended by the Python code:
`; …`, `DVAR …`, `PSOCONTROL X ON/OFF`, `DWELL p`, `LINEAR args`, `G92 args`,
`FOR $var = 0 TO n-1`, `NEXT $var`, `REPEAT n`, `ENDREPEAT`,
`PROGRAM 0 LOAD "file"`, `FARCALL "file"`, `PROGRAM 0 STOP`,
`MSGDISPLAY 1, "…"`. -/
inductive Instr where
  | commentI (s : String)
  | dvarI (vars : List String)
  | psoOn
  | psoOff
  | dwellI (pause : ℚ)
  | linear (args : List Arg)
  | g92 (args : List Arg)
  | forI (var : String) (num : ℤ)
  | nextI (var : String)
  | rptI (num : ℤ)
  | endrptI
  | loadI (file : String)
  | farcallI (file : String)
  | progStop
  | msgI (s : String)
  deriving DecidableEq

/-- The mutable state of a `PGMCompiler` instance, in the order the fields are
initialised by `__init__`: `_num_repeat`, `_num_for`, `_total_dwell_time`,
`_shutter_on`, `_loaded_files`, `_instructions`. -/
structure CState where
  num_repeat : ℤ
  num_for : ℤ
  total_dwell_time : ℚ
  shutter_on : Bool
  loaded_files : List String
  instructions : List Instr
  deriving DecidableEq

/-- The immutable configuration of a `PGMCompiler` instance: `filename`
(`None` is representable because `compile_pgm` asserts it is not `None`),
the two pause durations, and the coordinate transformation `T` (the action of
the matrix returned by `_compute_t_matrix`, which is a pure function of the
immutable `angle` and `ind_rif` fields). `output_digits` only affects text
rendering and is not modelled. -/
structure Config where
  filename : Option String
  long_pause : ℚ
  short_pause : ℚ
  T : ℚ × ℚ × ℚ → ℚ × ℚ × ℚ

/-- State right after `__init__`: both nesting counters `0`, no dwell time
accumulated, shutter off, no loaded files, empty instruction list. -/
def initState : CState :=
  { num_repeat := 0
    num_for := 0
    total_dwell_time := 0
    shutter_on := false
    loaded_files := []
    instructions := [] }

/-! ## Instruction compiler: operations -/

/-- The `X`/`Y`/`Z` part of `_format_args`: each coordinate contributes a field
exactly when it is not `None`. -/
def optArgs (x y z : Option ℚ) : List Arg :=
  (match x with | some v => [Arg.X v] | none => []) ++
  (match y with | some v => [Arg.Y v] | none => []) ++
  (match z with | some v => [Arg.Z v] | none => [])

def feedErrMsg : String := "Try to move with F = 0.0 mm/s. Check speed parameter."

/-- The feed-rate threshold `1e-6` of `_format_args` (spelled with `mkRat` so
that comparisons against it compute; `feedEps = 1 / 1000000` is proved in
`format_args_feed_policy`). -/
def feedEps : ℚ := mkRat 1 1000000

/-- Models `PGMCompiler._format_args`.  Builds the argument list for a positioning
instruction; a feed rate below `1e-6` raises `ValueError`, a feed rate that is
`None` simply contributes no `F` field. -/
def format_args (x y z f : Option ℚ) : Except Err (List Arg) :=
  match f with
  | none => Except.ok (optArgs x y z)
  | some fv =>
      if fv < feedEps then Except.error (Err.valueError feedErrMsg)
      else Except.ok (optArgs x y z ++ [Arg.F fv])

/-- Models `PGMCompiler.comment`. -/
def comment (st : CState) (s : String) : CState :=
  { st with instructions := st.instructions ++ [Instr.commentI s] }

/-- Models `PGMCompiler.dvar`. -/
def dvar (st : CState) (vs : List String) : CState :=
  { st with instructions := st.instructions ++ [Instr.dvarI vs] }

/-- Models `PGMCompiler.shutter`.  The requested state (after the `'ON'`/`'OFF'`
string assert) is a boolean; an instruction is appended only when it differs
from the tracked state. -/
def shutter (st : CState) (state : Bool) : CState :=
  if state = true ∧ st.shutter_on = false then
    { st with shutter_on := true, instructions := st.instructions ++ [Instr.psoOn] }
  else if state = false ∧ st.shutter_on = true then
    { st with shutter_on := false, instructions := st.instructions ++ [Instr.psoOff] }
  else st

/-- Models `PGMCompiler.dwell`: appends a `DWELL` instruction and accumulates the
pause into `_total_dwell_time`. -/
def dwell (st : CState) (pause : ℚ) : CState :=
  { st with instructions := st.instructions ++ [Instr.dwellI pause]
            total_dwell_time := st.total_dwell_time + pause }

def shutterOpenMsg : String := "Try to move with shutter OPEN."

/-- Models `PGMCompiler.set_home`: asserts the shutter is off, then appends a `G92`
instruction (no feed rate). -/
def set_home (st : CState) (pos : Option ℚ × Option ℚ × Option ℚ) :
    Except Err CState :=
  if st.shutter_on = true then Except.error (Err.assertFail shutterOpenMsg)
  else do
    let args ← format_args pos.1 pos.2.1 pos.2.2 none
    return { st with instructions := st.instructions ++ [Instr.g92 args] }

/-- Models `PGMCompiler.move_to`.  If the shutter is currently on it is closed first
(via `self.shutter("OFF")`, which appends a shutter-close instruction); then a
`LINEAR` instruction with the given positioning speed is appended, followed by
a long dwell. -/
def move_to (cfg : Config) (st : CState) (pos : Option ℚ × Option ℚ × Option ℚ)
    (speed_pos : ℚ) : Except Err CState :=
  let st1 := if st.shutter_on = true then shutter st false else st
  do
    let args ← format_args pos.1 pos.2.1 pos.2.2 (some speed_pos)
    return dwell { st1 with instructions := st1.instructions ++ [Instr.linear args] }
      cfg.long_pause

/-- Models `PGMCompiler.homing`: a comment followed by `move_to([0,0,0])` with the
default positioning speed `50`. -/
def homing (cfg : Config) (st : CState) : Except Err CState :=
  move_to cfg (comment st (String.mk ['H', 'O', 'M', 'I', 'N', 'G']))
    (some 0, some 0, some 0) 50

/-- Models `PGMCompiler.for_loop`: appends the `FOR` directive and increments
`_num_for`. -/
def for_loop (st : CState) (var : String) (num : ℤ) : CState :=
  { st with instructions := st.instructions ++ [Instr.forI var num]
            num_for := st.num_for + 1 }

/-- Models `PGMCompiler.end_for`: appends the `NEXT` directive and decrements
`_num_for` (unconditionally). -/
def end_for (st : CState) (var : String) : CState :=
  { st with instructions := st.instructions ++ [Instr.nextI var]
            num_for := st.num_for - 1 }

/-- Models `PGMCompiler.rpt`: appends the `REPEAT` directive and increments
`_num_repeat`. -/
def rpt (st : CState) (num : ℤ) : CState :=
  { st with instructions := st.instructions ++ [Instr.rptI num]
            num_repeat := st.num_repeat + 1 }

/-- Models `PGMCompiler.endrpt`: appends the `ENDREPEAT` directive and decrements
`_num_repeat` (unconditionally). -/
def endrpt (st : CState) : CState :=
  { st with instructions := st.instructions ++ [Instr.endrptI]
            num_repeat := st.num_repeat - 1 }

def ticMsg : String := "INIZIO #TS"

def tocMsg : String := "FINE   #TS"

/-- Models `PGMCompiler.tic`. -/
def tic (st : CState) : CState :=
  { st with instructions := st.instructions ++ [Instr.msgI ticMsg] }

/-- Models `PGMCompiler.toc` (the three `MSGDISPLAY` lines are kept as one entry each). -/
def toc (st : CState) : CState :=
  { st with instructions := st.instructions ++
      [Instr.msgI tocMsg, Instr.msgI (String.mk ['-']), Instr.msgI (String.mk [' '])] }

/-- Models `pathlib.Path.stem`: final path component without its last suffix. -/
def stem (s : String) : String :=
  let base := (s.splitOn (String.mk ['/'])).getLastD s
  let parts := base.splitOn (String.mk ['.'])
  if parts.length ≤ 1 then base
  else String.intercalate (String.mk ['.']) parts.dropLast

def wrongExtMsg : String := "Given filename has wrong extension."

/-- Models `PGMCompiler._parse_filepath`.  After the optional extension assert it
joins `filepath` and `filename` and then executes `assert filename.exist()`:
`filename` is a `str` and `str` has no attribute `exist` (nor does
`pathlib.Path`, whose method is `exists`), so every call that reaches this
line raises `AttributeError`. -/
def parse_filepath (filename : String) (filepath : Option String)
    (extension : Option String) : Except Err String :=
  match extension with
  | some ext =>
      if filename.endsWith ext then Except.error Err.attributeError
      else Except.error (Err.assertFail wrongExtMsg)
  | none =>
      let _file := match filepath with
        | some p => p ++ String.mk ['/'] ++ filename
        | none => filename
      Except.error Err.attributeError

/-- Models `PGMCompiler.load`: parses the file path, appends the `PROGRAM 0 LOAD`
instruction and records the stem among `_loaded_files`.  (Unreachable in
practice: `_parse_filepath` always raises.) -/
def load (st : CState) (filename : String) (filepath : Option String) :
    Except Err CState := do
  let file ← parse_filepath filename filepath none
  return { st with instructions := st.instructions ++ [Instr.loadI file]
                   loaded_files := st.loaded_files ++ [stem file] }

def notLoadedMsg : String := "not loaded. Cannot load it."

/-- Models `PGMCompiler.farcall`: parses the file path, asserts the stem was
previously loaded, then appends `FARCALL` plus `PROGRAM 0 STOP`.
(Unreachable in practice: `_parse_filepath` always raises.) -/
def farcall (st : CState) (filename : String) : Except Err CState := do
  let file ← parse_filepath filename none none
  if stem file ∈ st.loaded_files then
    return { st with instructions :=
      st.instructions ++ [Instr.farcallI file, Instr.progStop] }
  else Except.error (Err.assertFail notLoadedMsg)

/-- One point row `(x, y, z, f, s)` of the DataFrame handed to
`point_to_instruction`. -/
structure Pt5 where
  x : ℚ
  y : ℚ
  z : ℚ
  f : ℚ
  s : ℕ
  deriving DecidableEq

/-- The body of the loop in `PGMCompiler.point_to_instruction` for one point:
format the (already transformed) coordinates together with the feed rate, then
dispatch on the shutter bit and the current shutter state. -/
def point_step (cfg : Config) (st : CState) (p : Pt5) : Except Err CState := do
  let v := cfg.T (p.x, p.y, p.z)
  let args ← format_args (some v.1) (some v.2.1) (some v.2.2) (some p.f)
  if p.s = 0 ∧ st.shutter_on = false then
    return dwell { st with instructions := st.instructions ++ [Instr.linear args] }
      cfg.long_pause
  else if p.s = 0 ∧ st.shutter_on = true then
    return dwell (shutter st false) cfg.short_pause
  else if p.s = 1 ∧ st.shutter_on = false then
    let st1 := shutter st true
    return { st1 with instructions := st1.instructions ++ [Instr.linear args] }
  else
    return { st with instructions := st.instructions ++ [Instr.linear args] }

/-- Models `PGMCompiler.point_to_instruction`: every row of the point matrix is
transformed by the matrix of `_compute_t_matrix` and processed in order by
`point_step`. -/
def point_to_instruction (cfg : Config) (st : CState) (pts : List Pt5) :
    Except Err CState :=
  pts.foldlM (fun s p => point_step cfg s p) st

def noFilenameMsg : String := "No filename given."

def sNEXT : String := "NEXT"

def sFOR : String := "FOR"

def sENDREPEAT : String := "END REPEAT"

def sREPEAT : String := "REPEAT"

/-- Models `PGMCompiler.compile_pgm`: asserts a filename is present, that
`_num_repeat` is zero (otherwise the error names `|_num_repeat|` missing
`END REPEAT`/`REPEAT` instructions), and that `_num_for` is zero (otherwise
the error names `|_num_for|` missing `NEXT`/`FOR` instructions); the
serialized program is the accumulated instruction list. -/
def compile_pgm (cfg : Config) (st : CState) : Except Err (List Instr) :=
  if cfg.filename = none then Except.error (Err.assertFail noFilenameMsg)
  else if st.num_repeat ≠ 0 then
    Except.error (Err.unbalanced st.num_repeat.natAbs
      (if 0 < st.num_repeat then sENDREPEAT else sREPEAT))
  else if st.num_for ≠ 0 then
    Except.error (Err.unbalanced st.num_for.natAbs
      (if 0 < st.num_for then sNEXT else sFOR))
  else Except.ok st.instructions

/-! ## Instruction compiler: operation traces

The reachability statements of the specification quantify over arbitrary
sequences of compiler operations.  `Op` enumerates the public mutating
operations of `PGMCompiler` (with `header` omitted: it only splices a fixed
text preamble read from a file and touches no state field).  A trace is run
from the freshly initialised state; a raised exception aborts the trace. -/

inductive Op where
  | commentO (s : String)
  | dvarO (vs : List String)
  | shutterO (b : Bool)
  | dwellO (pause : ℚ)
  | setHomeO (pos : Option ℚ × Option ℚ × Option ℚ)
  | homingO
  | moveToO (pos : Option ℚ × Option ℚ × Option ℚ) (speed : ℚ)
  | forLoopO (var : String) (num : ℤ)
  | endForO (var : String)
  | rptO (num : ℤ)
  | endrptO
  | ticO
  | tocO
  | loadO (fn : String) (fp : Option String)
  | farcallO (fn : String)
  | pointsO (pts : List Pt5)
  deriving DecidableEq

/-- Runs a single compiler operation on a state. -/
def step (cfg : Config) (st : CState) : Op → Except Err CState
  | Op.commentO s => Except.ok (comment st s)
  | Op.dvarO vs => Except.ok (dvar st vs)
  | Op.shutterO b => Except.ok (shutter st b)
  | Op.dwellO pause => Except.ok (dwell st pause)
  | Op.setHomeO pos => set_home st pos
  | Op.homingO => homing cfg st
  | Op.moveToO pos speed => move_to cfg st pos speed
  | Op.forLoopO var num => Except.ok (for_loop st var num)
  | Op.endForO var => Except.ok (end_for st var)
  | Op.rptO num => Except.ok (rpt st num)
  | Op.endrptO => Except.ok (endrpt st)
  | Op.ticO => Except.ok (tic st)
  | Op.tocO => Except.ok (toc st)
  | Op.loadO fn fp => load st fn fp
  | Op.farcallO fn => farcall st fn
  | Op.pointsO pts => point_to_instruction cfg st pts

/-- Runs a trace of compiler operations from a given state. -/
def runFrom (cfg : Config) (st : CState) (ops : List Op) : Except Err CState :=
  ops.foldlM (step cfg) st

/-- Runs a trace of compiler operations from the freshly initialised state. -/
def runOps (cfg : Config) (ops : List Op) : Except Err CState :=
  runFrom cfg initState ops

/-- Number of `for_loop` calls in a trace. -/
def countFor (ops : List Op) : ℕ :=
  ops.countP (fun o => match o with | Op.forLoopO _ _ => true | _ => false)

/-- Number of `end_for` calls in a trace. -/
def countEndFor (ops : List Op) : ℕ :=
  ops.countP (fun o => match o with | Op.endForO _ => true | _ => false)

/-- Number of `rpt` calls in a trace. -/
def countRpt (ops : List Op) : ℕ :=
  ops.countP (fun o => match o with | Op.rptO _ => true | _ => false)

/-- Number of `endrpt` calls in a trace. -/
def countEndRpt (ops : List Op) : ℕ :=
  ops.countP (fun o => match o with | Op.endrptO => true | _ => false)

/-! ## Coordinate transformation matrix

`PGMCompiler._compute_t_matrix` is embedded over the real numbers because it
involves `cos` and `sin`; it is the one noncomputable corner of the
development (the claims about it are purely algebraic). -/

/-- Rotation matrix `RM` of `_compute_t_matrix`: standard 2D rotation in
`x`,`y`, identity in `z`. -/
noncomputable def RM (angle : ℝ) : Matrix (Fin 3) (Fin 3) ℝ :=
  !![Real.cos angle, -Real.sin angle, 0;
     Real.sin angle, Real.cos angle, 0;
     0, 0, 1]

/-- Homothety (scale) matrix `SM` of `_compute_t_matrix`: identity in `x`,`y`,
`1 / ind_rif` in `z`. -/
noncomputable def SM (ind_rif : ℝ) : Matrix (Fin 3) (Fin 3) ℝ :=
  !![1, 0, 0;
     0, 1, 0;
     0, 0, 1 / ind_rif]

/-- Models `PGMCompiler._compute_t_matrix`: `TM = np.dot(SM, RM)`. -/
noncomputable def compute_t_matrix (angle ind_rif : ℝ) : Matrix (Fin 3) (Fin 3) ℝ :=
  SM ind_rif * RM angle


/-! ## Trench planner: data model

A `Polygon` is the coordinate ring of its exterior boundary
(`polygon.exterior.coords`); the empty polygon `Polygon()` is the empty ring.
A `Geom` is a polygonal shapely geometry: either one single (possibly empty)
`Polygon` or a `MultiPolygon` with its list of parts — the distinction
matters because the `.geoms` attribute exists only on multi-part geometries
and its access on a single `Polygon` raises `AttributeError`.  All geometric
primitives that `trench.py` obtains from shapely or
`largestinteriorrectangle` are collected in the abstract record `GeomEngine`
— the specification treats them as an external capability, so the theorems
below hold for every engine (hypotheses on the engine are stated explicitly
where a claim needs them). -/

abbrev Pnt := ℚ × ℚ

abbrev Polygon := List Pnt

/-- A polygonal shapely geometry: a single (possibly empty) `Polygon`, or a
`MultiPolygon` given by its list of parts.  Boolean operations such as
`difference` return the minimal type: `MultiPolygon` for a multi-part result,
`Polygon` for a single-part or empty result (`POLYGON EMPTY`). -/
inductive Geom where
  | poly (p : Polygon)
  | multi (ps : List Polygon)
  deriving DecidableEq

/-- The `.geoms` attribute access on a geometry (`trench_blocks.geoms`):
shapely defines `geoms` on multi-part geometries only, so the access on a
single (or empty) `Polygon` raises `AttributeError`. -/
def geomsOf : Geom → Except Err (List Polygon)
  | Geom.multi ps => Except.ok ps
  | Geom.poly _ => Except.error Err.attributeError

/-- Abstract interface to the external 2D geometry engine, one field per
primitive used by `trench.py`:

* `lineBuffer c d` — `geometry.LineString(c).buffer(d, cap_style=1)`;
* `difference g p` — `g.difference(p)`, a `Polygon` or `MultiPolygon`;
* `almostEqual a b` — `femto.helpers.almost_equal(a, b, tol=1e-8)`
  (`helpers.py` is not part of the sources under verification; per the
  specification it decides whether two geometries are indistinguishable
  within tolerance);
* `roundCorner p` — `p.buffer(round_corner, resolution=256, cap_style=1)`;
* `simplifyP p` — `p.simplify(tolerance=5e-7, preserve_topology=True)`;
* `normalizeP p` — `femto.helpers.normalize_polygon(p)` (ring orientation and
  starting-vertex normalization, also not under `src/`);
* `isValid p` — `p.is_valid`;
* `bufferSplit p d` — `p.buffer(d).simplify(1e-5, True)` split into its list
  of simple-polygon parts (a `Polygon` result gives a singleton, a
  `MultiPolygon` one entry per part);
* `containsHullEroded p d` —
  `p.contains(p.convex_hull.buffer(-0.01 * d))`;
* `minRotRectBounds p` — `p.minimum_rotated_rectangle.bounds`;
* `lirSides p d` — the last two components (width, height) of
  `lir.lir(coords of p.buffer(-2*d).exterior, scaled by 1e3 to int32) / 1e3`;
* `perimeter p` — `p.length`. -/
structure GeomEngine where
  lineBuffer : List Pnt → ℚ → Polygon
  difference : Geom → Polygon → Geom
  almostEqual : Geom → Geom → Bool
  roundCorner : Polygon → Polygon
  simplifyP : Polygon → Polygon
  normalizeP : Polygon → Polygon
  isValid : Polygon → Bool
  bufferSplit : Polygon → ℚ → List Polygon
  containsHullEroded : Polygon → ℚ → Bool
  minRotRectBounds : Polygon → ℚ × ℚ × ℚ × ℚ
  lirSides : Polygon → ℚ → ℚ × ℚ
  perimeter : Polygon → ℚ

/-- Models the `Trench` class: the polygon block plus the configuration fields
stored by `Trench.__init__` (the lazily written length accumulators are
returned by the toolpath function instead of being mutated in place). -/
structure Trench where
  block : Polygon
  delta_floor : ℚ
  height : ℚ
  safe_inner_turns : ℤ
  deriving DecidableEq

/-- Border `y`-coordinates of a trench block (`Trench.yborder`). -/
def yborder (p : Polygon) : List ℚ :=
  p.map Prod.snd

/-- Sort key used by `Trench.__lt__`/`__le__`: `self.yborder[0]`, the
`y`-coordinate of the **first** vertex of the exterior ring (`0` stands in for
the indexing error on an empty ring, which no claim exercises). -/
def ybhead (p : Polygon) : ℚ :=
  (yborder p).headD 0

/-- The comparison underlying `sorted(…, key=Trench)`: Python's stable sort
places `a` before `b` unless `Trench(b) < Trench(a)`, i.e. sorts by
`yborder[0]` in nondecreasing order with ties broken by input order. -/
def ybLe (p q : Polygon) : Prop :=
  ybhead p ≤ ybhead q

instance : DecidableRel ybLe := fun p q =>
  inferInstanceAs (Decidable (ybhead p ≤ ybhead q))

instance : IsTotal Polygon ybLe := ⟨fun p q => le_total (ybhead p) (ybhead q)⟩

instance : IsTrans Polygon ybLe := ⟨fun _ _ _ h h2 => le_trans h h2⟩

/-- Result of `sorted(trench_blocks.geoms, key=Trench)`: a stable sort of the
parts by the `y`-coordinate of their first border vertex.  (Any stable sort
computes the same list as Python's Timsort; insertion sort is stable.) -/
def sortBlocks (blocks : List Polygon) : List Polygon :=
  List.insertionSort ybLe blocks

/-- Python's `int()` applied to a rational: truncation toward zero. -/
def pyInt (q : ℚ) : ℤ :=
  if 0 ≤ q then ⌊q⌋ else -⌊-q⌋

/-- Shorter side of `block.minimum_rotated_rectangle.bounds` (the quantity
`d_ext` computed inside `Trench.num_insets`). -/
def d_ext (G : GeomEngine) (t : Trench) : ℚ :=
  let b := G.minRotRectBounds t.block
  min (b.2.2.1 - b.1) (b.2.2.2 - b.2.1)

/-- Shorter side of the largest axis-aligned interior rectangle of the block
eroded by `2*delta_floor` (the quantity `d_int` computed inside
`Trench.num_insets`). -/
def d_int (G : GeomEngine) (t : Trench) : ℚ :=
  let s := G.lirSides t.block t.delta_floor
  min s.1 s.2

/-- Models `Trench.num_insets`: `safe_inner_turns` for a (near-)convex block,
otherwise `int((d_ext - d_int) / (2*delta_floor)) + safe_inner_turns`. -/
def num_insets (G : GeomEngine) (t : Trench) : ℤ :=
  if G.containsHullEroded t.block t.delta_floor then t.safe_inner_turns
  else pyInt ((d_ext G t - d_int G t) / (2 * t.delta_floor)) + t.safe_inner_turns

/-- Models the static method `Trench.buffer_polygon`: a valid shape is
buffered and split into its simple parts, an invalid one degrades to the
empty polygon.  (The `isinstance(shape, MultiPolygon)` escape of the source
disjunction cannot fire here because a `Polygon` value is always a single
ring.) -/
def buffer_polygon (G : GeomEngine) (shape : Polygon) (offset : ℚ) : List Polygon :=
  if G.isValid shape then G.bufferSplit shape offset else [[]]

/-- Accumulator threaded through the inset loop of `Trench.toolpath`:
`queue` is `polygon_list`, `contours` the list of polygons yielded so far
(the toolpath yields `current_poly.exterior.coords`, i.e. the polygon ring
itself in this embedding), `floor_len` the `_floor_length` accumulator. -/
structure InsetAcc where
  queue : List Polygon
  contours : List Polygon
  floor_len : ℚ
  deriving DecidableEq

/-- The first phase of `Trench.toolpath` (`for _ in range(self.num_insets)`):
pop the head of `polygon_list` (raising `IndexError` when the list is empty),
skip it when empty, otherwise extend the queue with its eroded parts,
accumulate its perimeter into the floor length and yield it. -/
def insetLoop (G : GeomEngine) (delta : ℚ) : ℕ → InsetAcc → Except Err InsetAcc
  | 0, acc => Except.ok acc
  | n + 1, acc =>
      match acc.queue with
      | [] => Except.error Err.indexError
      | p :: rest =>
          if p = [] then insetLoop G delta n { acc with queue := rest }
          else insetLoop G delta n
            { queue := rest ++ buffer_polygon G p (-|delta|)
              contours := acc.contours ++ [p]
              floor_len := acc.floor_len + G.perimeter p }

/-- The spiral-inset phase of `Trench.toolpath` for a trench block: the
contours yielded before the zig-zag hatch fill, together with the final queue
(handed to the hatching phase) and the floor-length accumulator. -/
def toolpathInsets (G : GeomEngine) (t : Trench) : Except Err InsetAcc :=
  insetLoop G t.delta_floor (num_insets G t).toNat
    { queue := [t.block], contours := [], floor_len := 0 }

/-! ## Trench planner: TrenchColumn carving -/

/-- Configuration fields of the `TrenchColumn` dataclass used by `_dig` and
the derived geometry (plotting/time-estimate fields follow the source
defaults but are irrelevant to the claims). -/
structure TrenchColumn where
  x_center : ℚ
  y_min : ℚ
  y_max : ℚ
  bridge : ℚ
  length : Option ℚ
  h_box : ℚ
  delta_floor : ℚ
  safe_inner_turns : ℤ
  beam_waist : ℚ
  round_corner : ℚ
  deriving DecidableEq

/-- Models `TrenchColumn.adj_bridge`: `bridge / 2 + beam_waist + round_corner`. -/
def adj_bridge (c : TrenchColumn) : ℚ :=
  c.bridge / 2 + c.beam_waist + c.round_corner

/-- Models `TrenchColumn.rect`: the empty `Polygon()` when `length` is unset,
otherwise the box `(x_center ± length/2) × (y_min, y_max)` (ring as produced
by `geometry.box`, counter-clockwise from the bottom-right vertex). -/
def rect (c : TrenchColumn) : Geom :=
  match c.length with
  | none => Geom.poly []
  | some L =>
      Geom.poly
        [(c.x_center + L / 2, c.y_min), (c.x_center + L / 2, c.y_max),
         (c.x_center - L / 2, c.y_max), (c.x_center - L / 2, c.y_min),
         (c.x_center + L / 2, c.y_min)]

/-- The working region of `_dig` after subtracting every buffered mold path
from the column rectangle. -/
def diffAll (G : GeomEngine) (c : TrenchColumn) (coords_list : List (List Pnt)) :
    Geom :=
  coords_list.foldl
    (fun r coords => G.difference r (G.lineBuffer coords (adj_bridge c))) (rect c)

/-- Construction of one `Trench` from a carved block inside `_dig`: round the
corners, simplify, normalize, and keep the column's `delta_floor` and
`safe_inner_turns` (the height keeps the `Trench.__init__` default `0.300`). -/
def mkTrench (G : GeomEngine) (c : TrenchColumn) (block : Polygon) : Trench :=
  { block := G.normalizeP (G.simplifyP (G.roundCorner block))
    delta_floor := c.delta_floor
    height := 3 / 10
    safe_inner_turns := c.safe_inner_turns }

/-- Python's `del list[index]` for a nonnegative index: `IndexError` when out
of range. -/
def delIdx (l : List Trench) (i : ℕ) : Except Err (List Trench) :=
  if i < l.length then Except.ok (l.eraseIdx i) else Except.error Err.indexError

/-- Models `TrenchColumn._dig` (the common carving routine behind
`dig_from_waveguide` / `dig_from_array`): subtract every buffered mold path
from the column rectangle; if the result is indistinguishable from the
rectangle, log and leave the trench list empty; otherwise access
`trench_blocks.geoms` — which raises `AttributeError` whenever the carve
left a single or empty `Polygon` instead of a `MultiPolygon` — then
construct one `Trench` per part in stably `yborder[0]`-sorted order and
finally delete the `remove` indices in descending order.  (Negative Python
indices in `remove` are outside this model; no claim uses `remove`.) -/
def dig (G : GeomEngine) (c : TrenchColumn) (coords_list : List (List Pnt))
    (remove : List ℕ) : Except Err (List Trench) :=
  let trench_blocks := diffAll G c coords_list
  if G.almostEqual trench_blocks (rect c) then Except.ok []
  else do
    let blocks ← geomsOf trench_blocks
    let ts := (sortBlocks blocks).map (mkTrench G c)
    (List.insertionSort (fun a b => b ≤ a) remove).foldlM delIdx ts

/-! ## Concrete instances used by the scenario theorems, counterexamples and
witnesses -/

def varI : String := "i"

/-- A compiler configured as in the module's `__main__` example but with
rotation angle `0` and `ind_rif = 1`, so that the transformation of
`_compute_t_matrix` is the identity. -/
def cfg0 : Config :=
  { filename := some (r"testPGMcompiler")
    long_pause := 1 / 4
    short_pause := 3 / 20
    T := fun v => v }

/-- A state whose shutter has just been opened. -/
def stOpen : CState := shutter initState true

/-- The point list of the specification's concrete compiler scenario:
`[(0,0,0,10,0), (1,0,0,10,1), (2,0,0,10,1), (3,0,0,10,0)]`. -/
def scenarioPts : List Pt5 :=
  [⟨0, 0, 0, 10, 0⟩, ⟨1, 0, 0, 10, 1⟩, ⟨2, 0, 0, 10, 1⟩, ⟨3, 0, 0, 10, 0⟩]

/-- Argument list of the `LINEAR` instruction emitted for a transformed point. -/
def linArgs (cfg : Config) (p : Pt5) : List Arg :=
  let v := cfg.T (p.x, p.y, p.z)
  [Arg.X v.1, Arg.Y v.2.1, Arg.Z v.2.2, Arg.F p.f]

/-- The instruction sequence the scenario is expected to append: move, long
dwell, shutter-on, move, move, shutter-off, short dwell. -/
def scenarioInstr (cfg : Config) : List Instr :=
  [Instr.linear (linArgs cfg ⟨0, 0, 0, 10, 0⟩), Instr.dwellI cfg.long_pause,
   Instr.psoOn, Instr.linear (linArgs cfg ⟨1, 0, 0, 10, 1⟩),
   Instr.linear (linArgs cfg ⟨2, 0, 0, 10, 1⟩),
   Instr.psoOff, Instr.dwellI cfg.short_pause]

/-- Recognizes a shutter-open instruction. -/
def isPsoOn : Instr → Bool
  | Instr.psoOn => true
  | _ => false

/-- Recognizes a shutter-close instruction. -/
def isPsoOff : Instr → Bool
  | Instr.psoOff => true
  | _ => false

/-- Effect of one operation on the `_num_for` counter. -/
def opForDelta : Op → ℤ
  | Op.forLoopO _ _ => 1
  | Op.endForO _ => -1
  | _ => 0

/-- Effect of one operation on the `_num_repeat` counter. -/
def opRptDelta : Op → ℤ
  | Op.rptO _ => 1
  | Op.endrptO => -1
  | _ => 0

/-- Block whose border starts at `y = 5` but reaches down to `y = 0`. -/
def blkA : Polygon := [(0, 5), (0, 0), (1, 0), (1, 5), (0, 5)]

/-- Block whose border starts at `y = 1` and stays within `1 ≤ y ≤ 2`. -/
def blkB : Polygon := [(0, 1), (1, 1), (1, 2), (0, 2), (0, 1)]

/-- A geometry engine whose difference operation carves a `MultiPolygon` of
the two concrete blocks `blkA` and `blkB` and whose cosmetic operations
(corner rounding, simplification, normalization) are the identity. -/
def G3 : GeomEngine :=
  { lineBuffer := fun _ _ => []
    difference := fun _ _ => Geom.multi [blkA, blkB]
    almostEqual := fun _ _ => false
    roundCorner := id
    simplifyP := id
    normalizeP := id
    isValid := fun _ => true
    bufferSplit := fun p _ => [p]
    containsHullEroded := fun _ _ => true
    minRotRectBounds := fun _ => (0, 0, 1, 1)
    lirSides := fun _ _ => (1, 1)
    perimeter := fun _ => 0 }

/-- Column configuration for the ordering counterexample. -/
def tc3 : TrenchColumn :=
  { x_center := 0
    y_min := -1
    y_max := 6
    bridge := 26 / 1000
    length := some 1
    h_box := 75 / 1000
    delta_floor := 1 / 1000
    safe_inner_turns := 5
    beam_waist := 4 / 1000
    round_corner := 1 / 100 }

/-- The trench list `dig` produces from `G3`/`tc3`: the block starting at
`y = 1` first, the block whose minimum `y` is `0` second. -/
def digOut3 : List Trench := [mkTrench G3 tc3 blkB, mkTrench G3 tc3 blkA]

/-- Minimum of the border `y`-coordinates of a polygon. -/
def minYb (p : Polygon) : ℚ :=
  (yborder p).foldr min ((yborder p).headD 0)

/-- Engine modelling a full cover: the difference of the rectangle and the
buffered mold paths is the empty `Polygon` (`POLYGON EMPTY`), which the
tolerance test distinguishes from the nonempty rectangle (`false`). -/
def G4 : GeomEngine :=
  { lineBuffer := fun _ _ => []
    difference := fun _ _ => Geom.poly []
    almostEqual := fun _ _ => false
    roundCorner := id
    simplifyP := id
    normalizeP := id
    isValid := fun _ => true
    bufferSplit := fun p _ => [p]
    containsHullEroded := fun _ _ => true
    minRotRectBounds := fun _ => (0, 0, 1, 1)
    lirSides := fun _ _ => (1, 1)
    perimeter := fun _ => 0 }

/-- Variant of `G4` whose tolerance test always answers `true` (mold paths
disjoint from the rectangle). -/
def G4b : GeomEngine :=
  { G4 with almostEqual := fun _ _ => true }

/-- Column with `length` unset: its rectangle is the empty geometry. -/
def tc4 : TrenchColumn :=
  { tc3 with length := none }

/-- Unit-square block. -/
def sq5 : Polygon := [(0, 0), (1, 0), (1, 1), (0, 1), (0, 0)]

/-- Engine whose erosion immediately degenerates to the empty polygon: models
a block so small that `buffer(-delta_floor)` vanishes. -/
def G5 : GeomEngine :=
  { G4 with bufferSplit := fun _ _ => [[]], perimeter := fun _ => 4 }

/-- Engine whose erosion always returns one nonempty part. -/
def G5w : GeomEngine :=
  { G4 with bufferSplit := fun _ _ => [sq5], perimeter := fun _ => 4 }

/-- A near-convex trench block with `safe_inner_turns = 2`. -/
def t5 : Trench :=
  { block := sq5, delta_floor := mkRat 1 1000, height := 3 / 10, safe_inner_turns := 2 }


/-! ## Theorems -/

/-- Helper: `optArgs` never contains an `F` field. -/
theorem optArgs_no_F (x y z : Option ℚ) :
    (optArgs x y z).countP (fun a => match a with | Arg.F _ => true | _ => false) = 0 := by
  rcases x with _ | xv <;> rcases y with _ | yv <;> rcases z with _ | zv <;>
    simp [optArgs, List.countP, List.countP.go]

/-- C10: formatting a positioning instruction with a feed rate below `1e-6`
(in particular a zero feed rate) raises `ValueError` at format time; a feed
rate that is unset simply omits the `F` field (no `F` field is produced at
all); an admissible feed rate is emitted exactly as given, never clamped. -/
theorem format_args_feed_policy :
    feedEps = 1 / 1000000 ∧
    (∀ x y z : Option ℚ, format_args x y z none = Except.ok (optArgs x y z) ∧
      (optArgs x y z).countP (fun a => match a with | Arg.F _ => true | _ => false) = 0) ∧
    (∀ (x y z : Option ℚ) (f : ℚ), f < feedEps →
      format_args x y z (some f) = Except.error (Err.valueError feedErrMsg)) ∧
    (∀ (x y z : Option ℚ) (f : ℚ), ¬ f < feedEps →
      format_args x y z (some f) = Except.ok (optArgs x y z ++ [Arg.F f])) := by
  refine ⟨by rw [feedEps, Rat.mkRat_eq_divInt, Rat.divInt_eq_div]; norm_num,
    fun x y z => ⟨rfl, optArgs_no_F x y z⟩,
    fun x y z f h => ?_, fun x y z f h => ?_⟩
  · simp [format_args, h]
  · simp [format_args, h]

/-- Witness for C10 at concrete inputs: unset feed omits `F`, zero feed is a
hard error, feed `7` is emitted exactly. -/
theorem format_args_feed_policy_witness :
    format_args (some 1) none (some 2) none = Except.ok [Arg.X 1, Arg.Z 2] ∧
    format_args (some 1) none (some 2) (some 0) =
      Except.error (Err.valueError feedErrMsg) ∧
    format_args (some 1) none (some 2) (some 7) =
      Except.ok [Arg.X 1, Arg.Z 2, Arg.F 7] :=
  ⟨(format_args_feed_policy.2.1 (some 1) none (some 2)).1,
   format_args_feed_policy.2.2.1 (some 1) none (some 2) 0 (by decide),
   format_args_feed_policy.2.2.2 (some 1) none (some 2) 7 (by decide)⟩

/-- C6: serialization requires both nesting counters to be zero — the
`REPEAT` balance is checked first, then the `FOR` balance — and the raised
structural error names the number of missing closing directives; with both
counters zero the instruction stream is serialized; in particular compiling
right after a single `for_loop` with no matching `end_for` fails citing
exactly `1` missing `NEXT` instruction. -/
theorem compile_pgm_balance :
    (∀ cfg st, cfg.filename ≠ none → st.num_repeat = 0 → st.num_for ≠ 0 →
      compile_pgm cfg st = Except.error (Err.unbalanced st.num_for.natAbs
        (if 0 < st.num_for then sNEXT else sFOR))) ∧
    (∀ cfg st, cfg.filename ≠ none → st.num_repeat ≠ 0 →
      compile_pgm cfg st = Except.error (Err.unbalanced st.num_repeat.natAbs
        (if 0 < st.num_repeat then sENDREPEAT else sREPEAT))) ∧
    (∀ cfg st, cfg.filename ≠ none → st.num_repeat = 0 → st.num_for = 0 →
      compile_pgm cfg st = Except.ok st.instructions) ∧
    compile_pgm cfg0 (for_loop initState varI 5) =
      Except.error (Err.unbalanced 1 sNEXT) := by
  refine ⟨fun cfg st h1 h2 h3 => ?_, fun cfg st h1 h2 => ?_,
    fun cfg st h1 h2 h3 => ?_, rfl⟩
  · simp [compile_pgm, h1, h2, h3]
  · simp [compile_pgm, h1, h2]
  · simp [compile_pgm, h1, h2, h3]

/-- Witness for C6 at concrete states: one unmatched `for_loop` yields the
`1` missing `NEXT` error, one unmatched `rpt` yields the `1` missing
`END REPEAT` error, the initial state serializes to the empty program. -/
theorem compile_pgm_balance_witness :
    compile_pgm cfg0 (for_loop initState varI 5) =
      Except.error (Err.unbalanced 1 sNEXT) ∧
    compile_pgm cfg0 (rpt initState 3) =
      Except.error (Err.unbalanced 1 sENDREPEAT) ∧
    compile_pgm cfg0 initState = Except.ok [] :=
  ⟨compile_pgm_balance.1 cfg0 (for_loop initState varI 5) (by decide) rfl (by decide),
   compile_pgm_balance.2.1 cfg0 (rpt initState 3) (by decide) (by decide),
   compile_pgm_balance.2.2.1 cfg0 initState (by decide) rfl rfl⟩

/-- C9 (code bug): `_parse_filepath` executes `assert filename.exist()` where
`filename` is a `str` — neither `str` nor `pathlib.Path` has a method
`exist` (the `Path` method is `exists`) — so both `load` and `farcall`
unconditionally raise `AttributeError`: no program name is ever recorded as
loaded and no `FARCALL`/`PROGRAM 0 STOP` instruction is ever emitted,
contrary to the documented load/far-call contract. -/
theorem farcall_always_attribute_error :
    load initState (r"prog.pgm") (some (r"dir")) = Except.error Err.attributeError ∧
    (∀ (st : CState) (fn : String), farcall st fn = Except.error Err.attributeError) ∧
    (∀ (st : CState) (fn : String) (fp : Option String),
      load st fn fp = Except.error Err.attributeError) :=
  ⟨rfl, fun _ _ => rfl, fun _ _ _ => rfl⟩

/-- C2 (amended): `move_to` does not require the shutter to be off — when the
shutter is on it first closes it (appending a shutter-close instruction)
instead of raising; in both shutter states it then appends one positioning
instruction with the given feed rate followed by a long dwell, accumulating
the long pause into the total dwell time; its only error is the zero-feed
`ValueError` of `_format_args`. -/
theorem move_to_closes_shutter :
    (∀ cfg st x y z speed, ¬ speed < feedEps → st.shutter_on = true →
      move_to cfg st (x, y, z) speed = Except.ok
        { st with shutter_on := false
                  total_dwell_time := st.total_dwell_time + cfg.long_pause
                  instructions := st.instructions ++
                    [Instr.psoOff, Instr.linear (optArgs x y z ++ [Arg.F speed]),
                     Instr.dwellI cfg.long_pause] }) ∧
    (∀ cfg st x y z speed, ¬ speed < feedEps → st.shutter_on = false →
      move_to cfg st (x, y, z) speed = Except.ok
        { st with total_dwell_time := st.total_dwell_time + cfg.long_pause
                  instructions := st.instructions ++
                    [Instr.linear (optArgs x y z ++ [Arg.F speed]),
                     Instr.dwellI cfg.long_pause] }) ∧
    (∀ cfg st pos speed, speed < feedEps →
      move_to cfg st pos speed = Except.error (Err.valueError feedErrMsg)) := by
  refine ⟨fun cfg st x y z speed hs hon => ?_, fun cfg st x y z speed hs hoff => ?_,
    fun cfg st pos speed hs => ?_⟩
  · simp [move_to, format_args, shutter, dwell, hs, hon]
  · simp [move_to, format_args, shutter, dwell, hs, hoff]
  · simp [move_to, format_args, hs]

/-- Counterexample for C2 as stated: calling `move_to` while the shutter is
on does **not** raise — it succeeds, closing the shutter first and appending
shutter-close, positioning and dwell instructions. -/
theorem move_to_claim_false :
    move_to cfg0 stOpen (some 1, some 2, some 3) 50 = Except.ok
      { num_repeat := 0
        num_for := 0
        total_dwell_time := 0 + 1 / 4
        shutter_on := false
        loaded_files := []
        instructions := [Instr.psoOn, Instr.psoOff,
          Instr.linear [Arg.X 1, Arg.Y 2, Arg.Z 3, Arg.F 50],
          Instr.dwellI (1 / 4)] } := rfl

/-- Witness for C2 at concrete inputs: the shutter-off move and the zero-feed
error. -/
theorem move_to_closes_shutter_witness :
    move_to cfg0 initState (some 1, some 2, some 3) 50 = Except.ok
      { num_repeat := 0
        num_for := 0
        total_dwell_time := 0 + 1 / 4
        shutter_on := false
        loaded_files := []
        instructions := [Instr.linear [Arg.X 1, Arg.Y 2, Arg.Z 3, Arg.F 50],
          Instr.dwellI (1 / 4)] } ∧
    move_to cfg0 initState (some 1, some 2, some 3) 0 =
      Except.error (Err.valueError feedErrMsg) :=
  ⟨move_to_closes_shutter.2.1 cfg0 initState (some 1) (some 2) (some 3) 50
      (by decide) rfl,
   move_to_closes_shutter.2.2 cfg0 initState (some 1, some 2, some 3) 0 (by decide)⟩

/-- C1: each point of a sequence fed to `point_to_instruction` is processed,
after the coordinate transformation, by exactly one of four rules —
bit `0`/shutter off: move then long dwell; bit `0`/shutter on: shutter-close
then short dwell and no move; bit `1`/shutter off: shutter-open then move, no
dwell; bit `1`/shutter on: move only — and on the concrete input
`[(0,0,0,10,0), (1,0,0,10,1), (2,0,0,10,1), (3,0,0,10,0)]`, starting with
the shutter off, the appended instructions are exactly: move, long dwell,
shutter-on, move, move, shutter-off, short dwell, containing exactly one
shutter-open and one shutter-close instruction. -/
theorem point_to_instruction_rules :
    (∀ cfg st p, ¬ p.f < feedEps → p.s = 0 → st.shutter_on = false →
      point_step cfg st p = Except.ok { st with
        total_dwell_time := st.total_dwell_time + cfg.long_pause
        instructions := st.instructions ++
          [Instr.linear (linArgs cfg p), Instr.dwellI cfg.long_pause] }) ∧
    (∀ cfg st p, ¬ p.f < feedEps → p.s = 0 → st.shutter_on = true →
      point_step cfg st p = Except.ok { st with
        shutter_on := false
        total_dwell_time := st.total_dwell_time + cfg.short_pause
        instructions := st.instructions ++
          [Instr.psoOff, Instr.dwellI cfg.short_pause] }) ∧
    (∀ cfg st p, ¬ p.f < feedEps → p.s = 1 → st.shutter_on = false →
      point_step cfg st p = Except.ok { st with
        shutter_on := true
        instructions := st.instructions ++
          [Instr.psoOn, Instr.linear (linArgs cfg p)] }) ∧
    (∀ cfg st p, ¬ p.f < feedEps → p.s = 1 → st.shutter_on = true →
      point_step cfg st p = Except.ok { st with
        instructions := st.instructions ++ [Instr.linear (linArgs cfg p)] }) ∧
    (∀ cfg, point_to_instruction cfg initState scenarioPts = Except.ok
      { num_repeat := 0
        num_for := 0
        total_dwell_time := 0 + cfg.long_pause + cfg.short_pause
        shutter_on := false
        loaded_files := []
        instructions := scenarioInstr cfg }) ∧
    (∀ cfg, (scenarioInstr cfg).countP isPsoOn = 1 ∧
      (scenarioInstr cfg).countP isPsoOff = 1) := by
  refine ⟨fun cfg st p hf h0 hoff => ?_, fun cfg st p hf h0 hon => ?_,
    fun cfg st p hf h1 hoff => ?_, fun cfg st p hf h1 hon => ?_,
    fun cfg => ?_, fun cfg => ?_⟩
  · simp [point_step, format_args, linArgs, optArgs, dwell, hf, h0, hoff]
  · simp [point_step, format_args, shutter, dwell, hf, h0, hon]
  · simp [point_step, format_args, linArgs, optArgs, shutter, hf, h1, hoff]
  · simp [point_step, format_args, linArgs, optArgs, hf, h1, hon]
  · rfl
  · constructor <;> rfl

/-- Witness for C1: the four rules applied at concrete points and states, and
the scenario at the concrete configuration `cfg0`. -/
theorem point_to_instruction_rules_witness :
    point_step cfg0 initState ⟨1, 2, 3, 10, 0⟩ = Except.ok
      { num_repeat := 0, num_for := 0, total_dwell_time := 0 + 1 / 4
        shutter_on := false, loaded_files := []
        instructions := [Instr.linear [Arg.X 1, Arg.Y 2, Arg.Z 3, Arg.F 10],
          Instr.dwellI (1 / 4)] } ∧
    point_step cfg0 stOpen ⟨1, 2, 3, 10, 0⟩ = Except.ok
      { num_repeat := 0, num_for := 0, total_dwell_time := 0 + 3 / 20
        shutter_on := false, loaded_files := []
        instructions := [Instr.psoOn, Instr.psoOff, Instr.dwellI (3 / 20)] } ∧
    point_step cfg0 initState ⟨1, 2, 3, 10, 1⟩ = Except.ok
      { num_repeat := 0, num_for := 0, total_dwell_time := 0
        shutter_on := true, loaded_files := []
        instructions := [Instr.psoOn,
          Instr.linear [Arg.X 1, Arg.Y 2, Arg.Z 3, Arg.F 10]] } ∧
    point_step cfg0 stOpen ⟨1, 2, 3, 10, 1⟩ = Except.ok
      { num_repeat := 0, num_for := 0, total_dwell_time := 0
        shutter_on := true, loaded_files := []
        instructions := [Instr.psoOn,
          Instr.linear [Arg.X 1, Arg.Y 2, Arg.Z 3, Arg.F 10]] } ∧
    point_to_instruction cfg0 initState scenarioPts = Except.ok
      { num_repeat := 0, num_for := 0
        total_dwell_time := 0 + 1 / 4 + 3 / 20
        shutter_on := false, loaded_files := []
        instructions := scenarioInstr cfg0 } :=
  ⟨point_to_instruction_rules.1 cfg0 initState ⟨1, 2, 3, 10, 0⟩ (by decide) rfl rfl,
   point_to_instruction_rules.2.1 cfg0 stOpen ⟨1, 2, 3, 10, 0⟩ (by decide) rfl rfl,
   point_to_instruction_rules.2.2.1 cfg0 initState ⟨1, 2, 3, 10, 1⟩ (by decide) rfl rfl,
   point_to_instruction_rules.2.2.2.1 cfg0 stOpen ⟨1, 2, 3, 10, 1⟩ (by decide) rfl rfl,
   point_to_instruction_rules.2.2.2.2.1 cfg0⟩

/-- C7: the transformation matrix of `_compute_t_matrix` is the homothety
matrix times the rotation matrix, i.e. the standard 2D rotation in `x`,`y`
with the `z` row scaled by `1 / ind_rif`; with rotation angle `0` and
effective index `1` it is the identity matrix, so the transform fixes every
point. -/
theorem compute_t_matrix_spec :
    (∀ angle ind_rif : ℝ, compute_t_matrix angle ind_rif = SM ind_rif * RM angle) ∧
    (∀ angle ind_rif : ℝ, compute_t_matrix angle ind_rif =
      !![Real.cos angle, -Real.sin angle, 0;
         Real.sin angle, Real.cos angle, 0;
         0, 0, 1 / ind_rif]) ∧
    compute_t_matrix 0 1 = 1 ∧
    (∀ p : Fin 3 → ℝ, (compute_t_matrix 0 1).mulVec p = p) := by
  have hmat : ∀ angle ind_rif : ℝ, compute_t_matrix angle ind_rif =
      !![Real.cos angle, -Real.sin angle, 0;
         Real.sin angle, Real.cos angle, 0;
         0, 0, 1 / ind_rif] := by
    intro angle ind_rif
    ext i j
    fin_cases i <;> fin_cases j <;>
      simp [compute_t_matrix, SM, RM, Matrix.mul_apply, Fin.sum_univ_three]
  have hone : compute_t_matrix 0 1 = 1 := by
    rw [hmat 0 1, Matrix.one_fin_three]
    ext i j
    fin_cases i <;> fin_cases j <;> simp
  refine ⟨fun _ _ => rfl, hmat, hone, fun p => ?_⟩
  rw [hone, Matrix.one_mulVec]

/-- Helper: `shutter` never touches the nesting counters. -/
theorem shutter_counters (st : CState) (b : Bool) :
    (shutter st b).num_for = st.num_for ∧ (shutter st b).num_repeat = st.num_repeat := by
  unfold shutter
  split
  · exact ⟨rfl, rfl⟩
  split
  · exact ⟨rfl, rfl⟩
  · exact ⟨rfl, rfl⟩

/-- Helper: one point of `point_to_instruction` never touches the nesting
counters. -/
theorem point_step_counters {cfg : Config} {st st' : CState} {p : Pt5}
    (h : point_step cfg st p = Except.ok st') :
    st'.num_for = st.num_for ∧ st'.num_repeat = st.num_repeat := by
  by_cases hf : p.f < feedEps
  · simp [point_step, format_args, hf, bind, Except.bind] at h
  · simp only [point_step, format_args, if_neg hf, bind, Except.bind, pure,
      Except.pure] at h
    have hsc := shutter_counters st false
    have hsc2 := shutter_counters st true
    split at h
    · rw [Except.ok.injEq] at h; subst h; simp [dwell]
    split at h
    · rw [Except.ok.injEq] at h; subst h; simp [dwell, hsc.1, hsc.2]
    split at h
    · rw [Except.ok.injEq] at h; subst h; simp [hsc2.1, hsc2.2]
    · rw [Except.ok.injEq] at h; subst h; simp

/-- Helper: `point_to_instruction` never touches the nesting counters. -/
theorem point_list_counters {cfg : Config} :
    ∀ (pts : List Pt5) (st st' : CState),
      point_to_instruction cfg st pts = Except.ok st' →
      st'.num_for = st.num_for ∧ st'.num_repeat = st.num_repeat := by
  intro pts
  induction pts with
  | nil =>
      intro st st' h
      simp only [point_to_instruction, List.foldlM_nil, pure, Except.pure,
        Except.ok.injEq] at h
      simp [h.symm]
  | cons p ps ih =>
      intro st st' h
      simp only [point_to_instruction, List.foldlM_cons, bind, Except.bind] at h
      rcases hps : point_step cfg st p with e | st1
      · rw [hps] at h; cases h
      · rw [hps] at h
        have h1 := point_step_counters hps
        have h2 := ih st1 st' h
        exact ⟨h2.1.trans h1.1, h2.2.trans h1.2⟩

/-- Helper: `move_to` never touches the nesting counters. -/
theorem move_to_counters {cfg : Config} {st st' : CState}
    {pos : Option ℚ × Option ℚ × Option ℚ} {speed : ℚ}
    (h : move_to cfg st pos speed = Except.ok st') :
    st'.num_for = st.num_for ∧ st'.num_repeat = st.num_repeat := by
  by_cases hs : speed < feedEps
  · simp [move_to, format_args, hs, bind, Except.bind] at h
  · simp only [move_to, format_args, if_neg hs, bind, Except.bind, pure,
      Except.pure, Functor.map, Except.map, Except.ok.injEq] at h
    subst h
    by_cases hsh : st.shutter_on = true
    · have hsc := shutter_counters st false
      simp [dwell, hsh, hsc.1, hsc.2]
    · simp [dwell, hsh]

/-- Helper: `set_home` never touches the nesting counters. -/
theorem set_home_counters {st st' : CState}
    {pos : Option ℚ × Option ℚ × Option ℚ}
    (h : set_home st pos = Except.ok st') :
    st'.num_for = st.num_for ∧ st'.num_repeat = st.num_repeat := by
  by_cases hsh : st.shutter_on = true
  · simp [set_home, hsh] at h
  · simp only [set_home, if_neg hsh, format_args, bind, Except.bind, pure,
      Except.pure, Functor.map, Except.map, Except.ok.injEq] at h
    subst h
    simp

/-- Helper: effect of one operation on the nesting counters: `for_loop`/`rpt`
add one, `end_for`/`endrpt` subtract one, every other operation leaves them
unchanged. -/
theorem step_counters {cfg : Config} {st st' : CState} {op : Op}
    (h : step cfg st op = Except.ok st') :
    st'.num_for = st.num_for + opForDelta op ∧
    st'.num_repeat = st.num_repeat + opRptDelta op := by
  cases op with
  | commentO s =>
      simp only [step, Except.ok.injEq] at h
      simp [h.symm, comment, opForDelta, opRptDelta]
  | dvarO vs =>
      simp only [step, Except.ok.injEq] at h
      simp [h.symm, dvar, opForDelta, opRptDelta]
  | shutterO b =>
      simp only [step, Except.ok.injEq] at h
      have hsc := shutter_counters st b
      simp [h.symm, opForDelta, opRptDelta, hsc.1, hsc.2]
  | dwellO pause =>
      simp only [step, Except.ok.injEq] at h
      simp [h.symm, dwell, opForDelta, opRptDelta]
  | setHomeO pos =>
      have hc := set_home_counters h
      simp [opForDelta, opRptDelta, hc.1, hc.2]
  | homingO =>
      have hc := move_to_counters h
      simp [opForDelta, opRptDelta, hc.1, hc.2, comment]
  | moveToO pos speed =>
      have hc := move_to_counters h
      simp [opForDelta, opRptDelta, hc.1, hc.2]
  | forLoopO var num =>
      simp only [step, Except.ok.injEq] at h
      simp [h.symm, for_loop, opForDelta, opRptDelta]
  | endForO var =>
      simp only [step, Except.ok.injEq] at h
      simp [h.symm, end_for, opForDelta, opRptDelta]
      omega
  | rptO num =>
      simp only [step, Except.ok.injEq] at h
      simp [h.symm, rpt, opForDelta, opRptDelta]
  | endrptO =>
      simp only [step, Except.ok.injEq] at h
      simp [h.symm, endrpt, opForDelta, opRptDelta]
      omega
  | ticO =>
      simp only [step, Except.ok.injEq] at h
      simp [h.symm, tic, opForDelta, opRptDelta]
  | tocO =>
      simp only [step, Except.ok.injEq] at h
      simp [h.symm, toc, opForDelta, opRptDelta]
  | loadO fn fp =>
      simp [step, load, parse_filepath, bind, Except.bind] at h
  | farcallO fn =>
      simp [step, farcall, parse_filepath, bind, Except.bind] at h
  | pointsO pts =>
      have hc := point_list_counters pts st st' h
      simp [opForDelta, opRptDelta, hc.1, hc.2]

/-- Helper: relation between the per-operation counter deltas and the trace
counts. -/
theorem opForDelta_count (op : Op) :
    opForDelta op = (countFor [op] : ℤ) - countEndFor [op] ∧
    opRptDelta op = (countRpt [op] : ℤ) - countEndRpt [op] := by
  cases op <;> simp [opForDelta, opRptDelta, countFor, countEndFor, countRpt,
    countEndRpt, List.countP, List.countP.go]

/-- Helper: the trace counts split off the head operation. -/
theorem count_cons (op : Op) (ops : List Op) :
    countFor (op :: ops) = countFor [op] + countFor ops ∧
    countEndFor (op :: ops) = countEndFor [op] + countEndFor ops ∧
    countRpt (op :: ops) = countRpt [op] + countRpt ops ∧
    countEndRpt (op :: ops) = countEndRpt [op] + countEndRpt ops := by
  refine ⟨?_, ?_, ?_, ?_⟩ <;>
    · simp [countFor, countEndFor, countRpt, countEndRpt, List.countP_cons,
        List.countP_nil]
      omega

/-- Helper: counters along any successfully executed trace, from an arbitrary
start state. -/
theorem runFrom_counters {cfg : Config} :
    ∀ (ops : List Op) (st st' : CState), runFrom cfg st ops = Except.ok st' →
      st'.num_for = st.num_for + ((countFor ops : ℤ) - countEndFor ops) ∧
      st'.num_repeat = st.num_repeat + ((countRpt ops : ℤ) - countEndRpt ops) := by
  intro ops
  induction ops with
  | nil =>
      intro st st' h
      simp only [runFrom, List.foldlM_nil, pure, Except.pure, Except.ok.injEq] at h
      simp [h.symm, countFor, countEndFor, countRpt, countEndRpt, List.countP_nil]
  | cons op ops ih =>
      intro st st' h
      simp only [runFrom, List.foldlM_cons, bind, Except.bind] at h
      rcases hop : step cfg st op with e | st1
      · rw [hop] at h; cases h
      · rw [hop] at h
        have h1 := step_counters hop
        have h2 := ih st1 st' h
        have h3 := opForDelta_count op
        obtain ⟨hc1, hc2, hc3, hc4⟩ := count_cons op ops
        constructor
        · rw [h2.1, h1.1, h3.1, hc1, hc2]
          push_cast
          ring
        · rw [h2.2, h1.2, h3.2, hc3, hc4]
          push_cast
          ring

/-- C8 (amended): along every successfully executed operation trace from the
initial state the `FOR` counter equals the number of `for_loop` calls minus
the number of `end_for` calls, and the `REPEAT` counter the number of `rpt`
calls minus the number of `endrpt` calls; the counters are therefore signed
and non-negative exactly when the trace contains no surplus of closing
directives — `end_for`/`endrpt` decrement unconditionally, so an unmatched
closing call drives a counter below zero. -/
theorem nesting_counters_reachable :
    (∀ (cfg : Config) (ops : List Op) (st : CState),
      runOps cfg ops = Except.ok st →
      st.num_for = (countFor ops : ℤ) - countEndFor ops ∧
      st.num_repeat = (countRpt ops : ℤ) - countEndRpt ops) ∧
    (∀ (cfg : Config) (ops : List Op) (st : CState),
      runOps cfg ops = Except.ok st →
      countEndFor ops ≤ countFor ops → countEndRpt ops ≤ countRpt ops →
      0 ≤ st.num_for ∧ 0 ≤ st.num_repeat) := by
  have key : ∀ (cfg : Config) (ops : List Op) (st : CState),
      runOps cfg ops = Except.ok st →
      st.num_for = (countFor ops : ℤ) - countEndFor ops ∧
      st.num_repeat = (countRpt ops : ℤ) - countEndRpt ops := by
    intro cfg ops st h
    have hr := runFrom_counters ops initState st h
    simpa [initState] using hr
  refine ⟨key, fun cfg ops st h h1 h2 => ?_⟩
  obtain ⟨e1, e2⟩ := key cfg ops st h
  constructor <;> omega

/-- Counterexample for C8 as stated: the state reached from the initial state
by the single operation `end_for` has `_num_for = -1 < 0`; reachable states
can carry negative nesting counters. -/
theorem nesting_counters_claim_false :
    ¬ (∀ (cfg : Config) (ops : List Op) (st : CState),
        runOps cfg ops = Except.ok st → 0 ≤ st.num_for ∧ 0 ≤ st.num_repeat) := by
  intro hclaim
  have h := hclaim cfg0 [Op.endForO varI]
    { num_repeat := 0
      num_for := -1
      total_dwell_time := 0
      shutter_on := false
      loaded_files := []
      instructions := [Instr.nextI varI] } rfl
  exact absurd h.1 (by decide)

/-- Witness for C8 on the balanced concrete trace
`[for_loop, rpt, endrpt, end_for]`: the final counters are `0` and
non-negative. -/
theorem nesting_counters_reachable_witness :
    (0 : ℤ) ≤ (CState.mk 0 0 0 false []
      [Instr.forI varI 3, Instr.rptI 2, Instr.endrptI, Instr.nextI varI]).num_for ∧
    (0 : ℤ) ≤ (CState.mk 0 0 0 false []
      [Instr.forI varI 3, Instr.rptI 2, Instr.endrptI, Instr.nextI varI]).num_repeat :=
  nesting_counters_reachable.2 cfg0
    [Op.forLoopO varI 3, Op.rptO 2, Op.endrptO, Op.endForO varI]
    (CState.mk 0 0 0 false []
      [Instr.forI varI 3, Instr.rptI 2, Instr.endrptI, Instr.nextI varI])
    rfl (by decide) (by decide)

/-- C4 (code bug): the disjoint half of the claim holds — when the carve
result is indistinguishable from the rectangle within tolerance, `_dig` logs
and returns with the trench list empty.  The full-cover half fails: covering
mold paths leave the difference an empty `Polygon`, `almost_equal(empty,
rect)` is `false` for a nonempty rectangle, and `_dig` then evaluates
`trench_blocks.geoms` on a single `Polygon`, which has no `geoms` attribute
— `dig` raises `AttributeError` instead of leaving the trench list empty;
the same happens for any single-`Polygon` carve result. -/
theorem dig_full_cover_raises :
    (∀ (G : GeomEngine) (c : TrenchColumn) (molds : List (List Pnt)) (p : Polygon),
      diffAll G c molds = Geom.poly p →
      G.almostEqual (diffAll G c molds) (rect c) = false →
      dig G c molds [] = Except.error Err.attributeError) ∧
    (∀ (G : GeomEngine) (c : TrenchColumn) (molds : List (List Pnt)),
      G.almostEqual (diffAll G c molds) (rect c) = true →
      dig G c molds [] = Except.ok []) ∧
    dig G4 tc3 [[(0, 0), (1, 1)]] [] = Except.error Err.attributeError := by
  refine ⟨fun G c molds p hp h => ?_, fun G c molds h => ?_, rfl⟩
  · rw [hp] at h
    simp [dig, h, hp, geomsOf, bind, Except.bind]
  · simp [dig, h]

/-- Witness for C4: a buffered mold path fully covering the concrete
rectangle of `tc3` makes `dig` raise `AttributeError`, while a disjoint mold
set (tolerance test `true`) leaves the trench list empty. -/
theorem dig_full_cover_raises_witness :
    dig G4 tc3 [[(0, 0), (1, 1)]] [] = Except.error Err.attributeError ∧
    dig G4b tc4 [] [] = Except.ok [] :=
  ⟨dig_full_cover_raises.1 G4 tc3 [[(0, 0), (1, 1)]] [] rfl rfl,
   dig_full_cover_raises.2.1 G4b tc4 [] rfl⟩

/-- C3 (amended): the trench list produced by `dig` is the stable sort of the
carved blocks by the `y`-coordinate of the **first** border vertex
(`Trench.__lt__` compares `yborder[0]`, not the minimum of `yborder`), ties
broken by insertion order; in particular if one block's border lies entirely
below `y = 0` and the other's entirely above, the lower block gets index 0
whatever their input order. -/
theorem dig_sorted_by_first_y :
    (∀ (G : GeomEngine) (c : TrenchColumn) (molds : List (List Pnt))
      (blocks : List Polygon),
      diffAll G c molds = Geom.multi blocks →
      G.almostEqual (diffAll G c molds) (rect c) = false →
      dig G c molds [] =
        Except.ok ((sortBlocks blocks).map (mkTrench G c)) ∧
      (sortBlocks blocks).Pairwise ybLe) ∧
    (∀ A B : Polygon, A ≠ [] → B ≠ [] →
      (∀ y ∈ yborder A, y < 0) → (∀ y ∈ yborder B, 0 < y) →
      sortBlocks [A, B] = [A, B] ∧ sortBlocks [B, A] = [A, B]) := by
  constructor
  · intro G c molds blocks hm h
    rw [hm] at h
    refine ⟨by simp [dig, h, hm, geomsOf, bind, Except.bind, pure, Except.pure],
      List.sorted_insertionSort ybLe _⟩
  · intro A B hA hB hAy hBy
    rcases A with _ | ⟨a, as⟩
    · exact absurd rfl hA
    rcases B with _ | ⟨b, bs⟩
    · exact absurd rfl hB
    have ha : a.2 < 0 := hAy a.2 (by simp [yborder])
    have hb : 0 < b.2 := hBy b.2 (by simp [yborder])
    have hle : ybLe (a :: as) (b :: bs) := by
      show ybhead (a :: as) ≤ ybhead (b :: bs)
      simp only [ybhead, yborder, List.map_cons, List.headD_cons]
      exact le_of_lt (lt_trans ha hb)
    have hnle : ¬ ybLe (b :: bs) (a :: as) := by
      show ¬ ybhead (b :: bs) ≤ ybhead (a :: as)
      simp only [ybhead, yborder, List.map_cons, List.headD_cons]
      exact not_le.2 (lt_trans ha hb)
    constructor
    · simp [sortBlocks, List.insertionSort, List.orderedInsert, hle]
    · simp [sortBlocks, List.insertionSort, List.orderedInsert, hnle]

/-- Counterexample for C3 as stated: carving two concrete blocks — `blkA`
with minimum border `y = 0` but first border vertex at `y = 5`, `blkB` with
minimum border `y = 1` and first vertex at `y = 1` — produces the trench
list `[blkB, blkA]`, which is **not** ordered by the minimum `y`-coordinate
of the borders (index 0 does not hold the lowest minimum `y`). -/
theorem dig_min_y_order_false :
    dig G3 tc3 [[(0, 0), (1, 1)]] [] = Except.ok digOut3 ∧
    ¬ digOut3.Pairwise (fun a b => minYb a.block ≤ minYb b.block) := by
  exact ⟨rfl, by decide⟩

/-- Witness for C3: the concrete multi-part carve of `G3` yields the stably
first-vertex-sorted trench list, and blocks entirely below / entirely above
`y = 0` sort with the lower one first whatever their input order. -/
theorem dig_sorted_by_first_y_witness :
    dig G3 tc3 [[(0, 0), (1, 1)]] [] =
      Except.ok ((sortBlocks [blkA, blkB]).map (mkTrench G3 tc3)) ∧
    (sortBlocks [[((0 : ℚ), (-2 : ℚ)), (1, -1)], [((0 : ℚ), (1 : ℚ)), (1, 2)]] =
      [[((0 : ℚ), (-2 : ℚ)), (1, -1)], [((0 : ℚ), (1 : ℚ)), (1, 2)]] ∧
    sortBlocks [[((0 : ℚ), (1 : ℚ)), (1, 2)], [((0 : ℚ), (-2 : ℚ)), (1, -1)]] =
      [[((0 : ℚ), (-2 : ℚ)), (1, -1)], [((0 : ℚ), (1 : ℚ)), (1, 2)]]) :=
  ⟨(dig_sorted_by_first_y.1 G3 tc3 [[(0, 0), (1, 1)]] [blkA, blkB] rfl rfl).1,
   dig_sorted_by_first_y.2 [((0 : ℚ), (-2 : ℚ)), (1, -1)] [((0 : ℚ), (1 : ℚ)), (1, 2)]
    (by decide) (by decide) (by decide) (by decide)⟩

/-- Helper: each iteration of the inset loop yields at most one contour. -/
theorem insetLoop_len {G : GeomEngine} {delta : ℚ} :
    ∀ (n : ℕ) (acc acc' : InsetAcc), insetLoop G delta n acc = Except.ok acc' →
      acc'.contours.length ≤ acc.contours.length + n := by
  intro n
  induction n with
  | zero =>
      intro acc acc' h
      simp only [insetLoop, Except.ok.injEq] at h
      simp [h.symm]
  | succ n ih =>
      intro acc acc' h
      rcases hq : acc.queue with _ | ⟨p, rest⟩
      · simp only [insetLoop, hq] at h
        cases h
      · simp only [insetLoop, hq] at h
        by_cases hp : p = []
        · rw [if_pos hp] at h
          have hlen := ih _ _ h
          simp at hlen
          omega
        · rw [if_neg hp] at h
          have hlen := ih _ _ h
          simp at hlen
          omega

/-- Helper: when the block and every eroded part stay nonempty, every
iteration of the inset loop yields exactly one contour. -/
theorem insetLoop_exact {G : GeomEngine} (delta : ℚ)
    (hsplit : ∀ (p : Polygon) (d : ℚ), G.bufferSplit p d ≠ [] ∧
      ∀ q ∈ G.bufferSplit p d, q ≠ [])
    (hvalid : ∀ p : Polygon, G.isValid p = true) :
    ∀ (n : ℕ) (acc : InsetAcc), acc.queue ≠ [] → (∀ q ∈ acc.queue, q ≠ []) →
      (insetLoop G delta n acc).map (fun a => a.contours.length) =
        Except.ok (acc.contours.length + n) := by
  intro n
  induction n with
  | zero =>
      intro acc h1 h2
      simp [insetLoop, Except.map]
  | succ n ih =>
      intro acc h1 h2
      rcases hq : acc.queue with _ | ⟨p, rest⟩
      · exact absurd hq h1
      have hp : p ≠ [] := h2 p (by rw [hq]; exact List.mem_cons_self p rest)
      have hbp : buffer_polygon G p (-|delta|) = G.bufferSplit p (-|delta|) := by
        simp [buffer_polygon, hvalid p]
      have hnew1 : rest ++ buffer_polygon G p (-|delta|) ≠ [] := by
        rw [hbp]
        intro hcon
        rcases List.append_eq_nil.1 hcon with ⟨_, h2'⟩
        exact (hsplit p (-|delta|)).1 h2'
      have hnew2 : ∀ q ∈ rest ++ buffer_polygon G p (-|delta|), q ≠ [] := by
        intro q hqmem
        rw [hbp] at hqmem
        rcases List.mem_append.1 hqmem with hmem | hmem
        · exact h2 q (by rw [hq]; exact List.mem_cons_of_mem p hmem)
        · exact (hsplit p (-|delta|)).2 q hmem
      have hrec := ih
        { queue := rest ++ buffer_polygon G p (-|delta|)
          contours := acc.contours ++ [p]
          floor_len := acc.floor_len + G.perimeter p } hnew1 hnew2
      simp only [insetLoop, hq, if_neg hp]
      rw [hrec]
      simp only [List.length_append, List.length_cons, List.length_nil]
      congr 1
      omega

/-- C5 (amended): `num_insets` equals `safe_inner_turns` for a (near-)convex
block and `trunc((d_ext - d_int)/(2·delta_floor)) + safe_inner_turns`
otherwise, where `trunc` coincides with `floor` on the non-negative quotient;
the number of spiral contours actually produced before hatch fill is **at
most** `num_insets`, with equality whenever the block and all its successive
erosions remain nonempty (an early-emptied erosion yields fewer contours);
and `num_insets` is non-negative whenever `safe_inner_turns ≥ 0`,
`delta_floor > 0` and `d_int ≤ d_ext`. -/
theorem toolpath_inset_count :
    (∀ (G : GeomEngine) (t : Trench),
      G.containsHullEroded t.block t.delta_floor = true →
      num_insets G t = t.safe_inner_turns) ∧
    (∀ (G : GeomEngine) (t : Trench),
      G.containsHullEroded t.block t.delta_floor = false →
      num_insets G t =
        pyInt ((d_ext G t - d_int G t) / (2 * t.delta_floor)) + t.safe_inner_turns) ∧
    (∀ q : ℚ, 0 ≤ q → pyInt q = ⌊q⌋) ∧
    (∀ (G : GeomEngine) (t : Trench) (acc : InsetAcc),
      toolpathInsets G t = Except.ok acc →
      acc.contours.length ≤ (num_insets G t).toNat) ∧
    (∀ (G : GeomEngine) (t : Trench),
      (∀ (p : Polygon) (d : ℚ), G.bufferSplit p d ≠ [] ∧
        ∀ q ∈ G.bufferSplit p d, q ≠ []) →
      (∀ p : Polygon, G.isValid p = true) → t.block ≠ [] →
      (toolpathInsets G t).map (fun a => a.contours.length) =
        Except.ok (num_insets G t).toNat) ∧
    (∀ (G : GeomEngine) (t : Trench), 0 ≤ t.safe_inner_turns →
      0 < t.delta_floor → d_int G t ≤ d_ext G t → 0 ≤ num_insets G t) := by
  refine ⟨fun G t h => by simp [num_insets, h],
    fun G t h => by simp [num_insets, h],
    fun q hq => by simp [pyInt, hq],
    fun G t acc h => ?_, fun G t hsplit hvalid hblock => ?_,
    fun G t h0 hd hdi => ?_⟩
  · have hlen := insetLoop_len _ _ _ h
    simpa using hlen
  · have hrec := insetLoop_exact t.delta_floor hsplit hvalid (num_insets G t).toNat
      { queue := [t.block], contours := [], floor_len := 0 }
      (by simp) (by simpa using hblock)
    simpa [toolpathInsets] using hrec
  · unfold num_insets
    split
    · exact h0
    · have hq : 0 ≤ (d_ext G t - d_int G t) / (2 * t.delta_floor) :=
        div_nonneg (sub_nonneg.2 hdi) (by linarith)
      have hpy : 0 ≤ pyInt ((d_ext G t - d_int G t) / (2 * t.delta_floor)) := by
        rw [pyInt, if_pos hq]
        exact Int.floor_nonneg.2 hq
      omega

/-- Counterexample for C5 as stated: a block flagged (near-)convex with
`safe_inner_turns = 2` whose first erosion degenerates to the empty polygon
produces only `1` spiral contour, not `safe_inner_turns = 2`. -/
theorem toolpath_count_claim_false :
    G5.containsHullEroded t5.block t5.delta_floor = true ∧
    t5.safe_inner_turns = 2 ∧
    (toolpathInsets G5 t5).map (fun a => a.contours.length) = Except.ok 1 :=
  ⟨rfl, rfl, rfl⟩

/-- Witness for C5: with an engine whose erosions always return one nonempty
part, the convex-flagged unit square with `safe_inner_turns = 2` yields
exactly `2` contours, and `num_insets` is non-negative. -/
theorem toolpath_inset_count_witness :
    (toolpathInsets G5w t5).map (fun a => a.contours.length) = Except.ok 2 ∧
    (0 : ℤ) ≤ num_insets G5w t5 :=
  ⟨toolpath_inset_count.2.2.2.2.1 G5w t5
      (fun _ _ => ⟨(by decide : ([sq5] : List Polygon) ≠ []),
        (by decide : ∀ q ∈ ([sq5] : List Polygon), q ≠ [])⟩)
      (fun _ => rfl) (by decide),
   toolpath_inset_count.2.2.2.2.2 G5w t5 (by decide) (by decide)
      (by simp [d_ext, d_int, G5w, G4, t5])⟩
